import Mathlib

/-!
Shallow embedding of the steam-killer daemon: the current module
src/steam_killer/__init__.py and the legacy script src/steam-killer.py.
Pure time arithmetic is embedded directly; the effectful parts (file system,
process table, subprocess, logging) are embedded as explicit state passed in,
with performed side effects collected in traces and uncaught Python exceptions
surfaced as an error component.
-/

/-- Local wall-clock timestamp as used via datetime.datetime.now().
day counts days since an epoch that falls on a Monday, so day % 7 matches
Python datetime.weekday (Monday = 0, Sunday = 6). -/
structure DateTime where
  day : Nat
  hour : Nat
  minute : Nat
  second : Nat
deriving DecidableEq

def DateTime.weekday (t : DateTime) : Nat := t.day % 7

def DateTime.toSeconds (t : DateTime) : Int :=
  (t.day : Int) * 86400 + (t.hour : Int) * 3600 + (t.minute : Int) * 60 + (t.second : Int)

/-- The ALLOWED_PERIOD dict of steam_killer/__init__.py. -/
structure AllowedPeriod where
  weekday : Nat
  hour_start : Nat
  hour_end : Nat

def ALLOWED_PERIOD : AllowedPeriod := ⟨5, 6, 18⟩

def PROC_TERM_TIMEOUT : Nat := 10

/-- check_time of steam_killer/__init__.py: now is passed explicitly as t. -/
def check_time (t : DateTime) (weekday hour_start hour_end : Nat) : Bool :=
  let is_allowed_day : Bool := if t.weekday = weekday then true else false
  let is_allowed_time : Bool :=
    if hour_start ≤ t.hour ∧ t.hour ≤ hour_end then true else false
  if is_allowed_day = true ∧ is_allowed_time = true then true else false

/-- check_time of the legacy steam-killer.py: zero configuration arguments,
returns true when the process should be killed. -/
def check_time_legacy (t : DateTime) : Bool :=
  let is_saturday : Bool := if t.weekday = 5 then true else false
  let is_daytime : Bool := if 6 ≤ t.hour ∧ t.hour ≤ 18 then true else false
  if is_saturday = true ∧ is_daytime = true then false else true

/-- State of the external steam.pid file as seen by open(). -/
inductive PidFileState where
  | absent
  | unreadable
  | content (s : String)

/-- Python exception classes that can escape the embedded functions. -/
inductive PyError where
  | fileNotFoundError
  | osError
  | valueError
  | calledProcessError
deriving DecidableEq

def isPySpace (c : Char) : Bool :=
  c == ' ' || c == '\t' || c == '\n' || c == '\r' || c == '\x0b' || c == '\x0c'

def stripPy (l : List Char) : List Char :=
  ((l.dropWhile isPySpace).reverse.dropWhile isPySpace).reverse

def digitsToNat (l : List Char) : Nat :=
  l.foldl (fun a c => 10 * a + (c.toNat - 48)) 0

/-- Python int() applied to a string: optional surrounding whitespace, optional
sign, at least one ASCII digit; anything else raises ValueError (none here). -/
def parsePyInt (s : String) : Option Int :=
  match stripPy s.data with
  | [] => none
  | c :: cs =>
    if c == '-' then
      if cs ≠ [] ∧ cs.all Char.isDigit then some (-(digitsToNat cs : Int)) else none
    else if c == '+' then
      if cs ≠ [] ∧ cs.all Char.isDigit then some ((digitsToNat cs : Int)) else none
    else
      if (c :: cs).all Char.isDigit then some ((digitsToNat (c :: cs) : Int)) else none

/-- read_pidfile of steam_killer/__init__.py: opens the PID file and parses its
content with int(). The function body has no try/except, so a missing file
(FileNotFoundError), an unreadable file (OSError) or non-integer content
(ValueError) surfaces as an uncaught exception. -/
def read_pidfile (fs : PidFileState) : Except PyError Int :=
  match fs with
  | PidFileState.absent => Except.error PyError.fileNotFoundError
  | PidFileState.unreadable => Except.error PyError.osError
  | PidFileState.content s =>
    match parsePyInt s with
    | some n => Except.ok n
    | none => Except.error PyError.valueError

/-- check_proc: psutil.pid_exists, then Process(pid).name() compared to name;
the process table maps a PID to the name of the running process, if any. -/
def check_proc (procTable : Int → Option String) (pid : Int) (name : String) :
    Option Int :=
  match procTable pid with
  | some pname => if pname = name then some pid else none
  | none => none

/-- Observable side effects performed by notify_desktop and terminate_proc,
in program order. -/
inductive Act where
  | notifyCmd
  | warnNotify
  | logSigterm (pid : Int)
  | sigterm (pid : Int)
  | wait (secs : Nat)
  | warnKill (pid : Int)
  | sigkill (pid : Int)
  | logTerminated (pid : Int)
deriving DecidableEq

/-- Outcome of running the notify-send subprocess with check=True:
ok (exit 0), cmdMissing (raises FileNotFoundError, a subclass of OSError),
cmdFailed (command ran but exited non-zero, raises CalledProcessError). -/
inductive NotifyEnv where
  | ok
  | cmdMissing
  | cmdFailed
deriving DecidableEq

/-- notify_desktop: runs notify-send with check=True inside try/except OSError.
An OSError is caught and logged as a warning; CalledProcessError is not an
OSError and escapes. -/
def notify_desktop (ne : NotifyEnv) : List Act × Option PyError :=
  match ne with
  | NotifyEnv.ok => ([Act.notifyCmd], none)
  | NotifyEnv.cmdMissing => ([Act.notifyCmd, Act.warnNotify], none)
  | NotifyEnv.cmdFailed => ([Act.notifyCmd], some PyError.calledProcessError)

/-- terminate_proc: notify_desktop, then log and send SIGTERM, wait up to
PROC_TERM_TIMEOUT seconds; on psutil.TimeoutExpired log and send SIGKILL,
otherwise log that the process terminated. exitsInGrace tells whether the
process exits within the grace period. -/
def terminate_proc (ne : NotifyEnv) (exitsInGrace : Bool) (pid : Int) :
    List Act × Option PyError :=
  match notify_desktop ne with
  | (tr, some e) => (tr, some e)
  | (tr, none) =>
    if exitsInGrace then
      (tr ++ [Act.logSigterm pid, Act.sigterm pid,
              Act.wait PROC_TERM_TIMEOUT, Act.logTerminated pid], none)
    else
      (tr ++ [Act.logSigterm pid, Act.sigterm pid,
              Act.wait PROC_TERM_TIMEOUT, Act.warnKill pid,
              Act.sigkill pid], none)

/-- Ambient state for one evaluation of monitor: the current time, the PID
file, the process table, the notification subprocess outcome, and whether the
target process would exit within the grace period. -/
structure Env where
  now : DateTime
  pidfile : PidFileState
  procTable : Int → Option String
  notify : NotifyEnv
  procExitsInGrace : Bool

/-- monitor of steam_killer/__init__.py: if not check_time(**ALLOWED_PERIOD),
read the PID file, look up the process, and terminate it when found. The pair
collects the performed actions and a propagated exception, if any. -/
def monitor (env : Env) : List Act × Option PyError :=
  if ! check_time env.now ALLOWED_PERIOD.weekday ALLOWED_PERIOD.hour_start
      ALLOWED_PERIOD.hour_end then
    match read_pidfile env.pidfile with
    | Except.error e => ([], some e)
    | Except.ok pid =>
      match check_proc env.procTable pid "steam" with
      | none => ([], none)
      | some p => terminate_proc env.notify env.procExitsInGrace p
  else ([], none)

/-- dateutil relativedelta with an integer weekday argument and an absolute
hour: the absolute field is replaced first (minute and second keep their
values), then the date advances to the first day whose weekday is wd, zero
days if the date already has that weekday. In dateutil, as in Python,
weekday 0 is Monday. -/
def relativedelta_add (t : DateTime) (wd : Nat) (hour : Nat) : DateTime :=
  let r : DateTime := ⟨t.day, hour, t.minute, t.second⟩
  let jump : Nat := (7 - r.day % 7 + wd) % 7
  ⟨r.day + jump, r.hour, r.minute, r.second⟩

/-- calc_time_to_end of steam_killer/__init__.py: seconds from now to
now + relativedelta(weekday=ALLOWED_PERIOD weekday - 1, hour=hour_end). -/
def calc_time_to_end (t : DateTime) : Int :=
  DateTime.toSeconds
      (relativedelta_add t (ALLOWED_PERIOD.weekday - 1) ALLOWED_PERIOD.hour_end)
    - DateTime.toSeconds t

/-- The absolute instant sched_monitor arms next when it runs at time t:
loop.call_later(calc_time_to_end(), ...). -/
def sched_monitor_next (t : DateTime) : Int :=
  DateTime.toSeconds t + calc_time_to_end t

/-- Log lines emitted on the startup path of main and check_steam. -/
inductive LogEvent where
  | infoInit
  | debugDirFound
  | debugPidFound
  | errorPidMissing
  | errorDirMissing
  | infoExiting
deriving DecidableEq

/-- check_steam: true only when the steam directory exists and the steam.pid
file exists; logs an error and returns false otherwise. -/
def check_steam (dirExists pidExists : Bool) : List LogEvent × Bool :=
  if dirExists then
    if pidExists then ([LogEvent.debugDirFound, LogEvent.debugPidFound], true)
    else ([LogEvent.debugDirFound, LogEvent.errorPidMissing], false)
  else ([LogEvent.errorDirMissing], false)

/-- The startup gate of main: log, run check_steam, and on failure log and call
exit(), which in Python raises SystemExit(None) and exits with status 0.
Result: the emitted log lines, and some code for an early exit or none when
main proceeds to arm the scheduler and the watchdog observer. -/
def main_startup (dirExists pidExists : Bool) : List LogEvent × Option Nat :=
  let cs := check_steam dirExists pidExists
  if cs.2 then (LogEvent.infoInit :: cs.1, none)
  else (LogEvent.infoInit :: cs.1 ++ [LogEvent.infoExiting], some 0)

/-- C4: for every timestamp and every well-formed window with
hour_start ≤ hour_end, check_time returns true iff the weekday matches the
configured weekday and the hour lies in the inclusive range
[hour_start, hour_end]. -/
theorem check_time_iff (t : DateTime) (wd hs he : Nat) (h : hs ≤ he) :
    check_time t wd hs he = true ↔ t.weekday = wd ∧ hs ≤ t.hour ∧ t.hour ≤ he := by
  by_cases h1 : t.weekday = wd <;>
    by_cases h2 : hs ≤ t.hour ∧ t.hour ≤ he <;>
      simp [check_time, h1, h2, and_assoc]

/-- Witness for C4 at the window of the spec example: Saturday 18:00 with the
window weekday 5, hours 6 to 18. -/
theorem check_time_iff_witness :
    (6 ≤ 18)
    ∧ (check_time (⟨5, 18, 0, 0⟩ : DateTime) 5 6 18 = true
        ↔ DateTime.weekday (⟨5, 18, 0, 0⟩ : DateTime) = 5 ∧ 6 ≤ 18 ∧ 18 ≤ 18) :=
  ⟨by decide, check_time_iff (⟨5, 18, 0, 0⟩ : DateTime) 5 6 18 (by decide)⟩

/-- C9: at every instant, the legacy zero-argument check_time of
steam-killer.py returns the exact Boolean negation of
check_time(5, 6, 18) of steam_killer/__init__.py, so both versions decide to
kill under the same time condition with inverted polarity. -/
theorem legacy_check_time_negation (t : DateTime) :
    check_time_legacy t = ! check_time t 5 6 18 := by
  by_cases h1 : t.weekday = 5 <;>
    by_cases h2 : 6 ≤ t.hour ∧ t.hour ≤ 18 <;>
      simp [check_time_legacy, check_time, h1, h2]

/-- C10: any two instants that agree on the weekday and on the hour of day get
the same check_time verdict; minutes, seconds and finer components never
influence the decision. -/
theorem check_time_hour_granularity (t1 t2 : DateTime) (wd hs he : Nat)
    (hw : t1.weekday = t2.weekday) (hh : t1.hour = t2.hour) :
    check_time t1 wd hs he = check_time t2 wd hs he := by
  simp [check_time, hw, hh]

/-- Witness for C10: Saturday 12:00:00 and a Saturday one week later at
12:30:45 agree on the verdict for the configured window. -/
theorem check_time_hour_granularity_witness :
    DateTime.weekday (⟨5, 12, 0, 0⟩ : DateTime)
        = DateTime.weekday (⟨12, 12, 30, 45⟩ : DateTime)
    ∧ check_time (⟨5, 12, 0, 0⟩ : DateTime) 5 6 18
        = check_time (⟨12, 12, 30, 45⟩ : DateTime) 5 6 18 :=
  ⟨by decide,
    check_time_hour_granularity (⟨5, 12, 0, 0⟩ : DateTime)
      (⟨12, 12, 30, 45⟩ : DateTime) 5 6 18 (by decide) (by decide)⟩

/-- C8: whenever the current time is inside the allowed window, monitor
performs no action at all and raises nothing, for every PID-file state,
process table, notification outcome and process behaviour: in particular no
process lookup happens (an absent PID file would otherwise surface an error)
and terminate_proc is never invoked. -/
theorem monitor_inside_window_noop (env : Env)
    (h : check_time env.now ALLOWED_PERIOD.weekday ALLOWED_PERIOD.hour_start
        ALLOWED_PERIOD.hour_end = true) :
    monitor env = ([], none) := by
  simp [monitor, h]

/-- Witness for C8: Saturday noon, PID file absent, every PID resolving to a
running steam process — monitor still does nothing. -/
theorem monitor_inside_window_noop_witness :
    check_time (⟨5, 12, 0, 0⟩ : DateTime) ALLOWED_PERIOD.weekday
        ALLOWED_PERIOD.hour_start ALLOWED_PERIOD.hour_end = true
    ∧ monitor ⟨⟨5, 12, 0, 0⟩, PidFileState.absent, fun _ => some "steam",
        NotifyEnv.ok, true⟩ = ([], none) :=
  ⟨by decide,
    monitor_inside_window_noop
      ⟨⟨5, 12, 0, 0⟩, PidFileState.absent, fun _ => some "steam",
        NotifyEnv.ok, true⟩ (by decide)⟩

/-- C1 counterexample: outside the allowed window (Sunday noon) with the PID
file absent, monitor does not resolve the lookup to a quiet none: it performs
no action, logs nothing, and the FileNotFoundError raised by read_pidfile
propagates out of monitor uncaught. -/
theorem monitor_pidfile_absent_raises :
    monitor ⟨⟨6, 12, 0, 0⟩, PidFileState.absent, fun _ => none,
        NotifyEnv.ok, true⟩ = ([], some PyError.fileNotFoundError) := rfl

/-- C1 amended: outside the allowed window, a PID file that reads as an
integer whose process lookup fails is treated as process absent and monitor
returns quietly; but a PID file that is absent, unreadable or non-integer
makes read_pidfile raise, and monitor propagates the exception, with no
action performed and nothing logged. -/
theorem monitor_outside_window_pidfile (env : Env)
    (hw : check_time env.now ALLOWED_PERIOD.weekday ALLOWED_PERIOD.hour_start
        ALLOWED_PERIOD.hour_end = false) :
    (∀ pid, read_pidfile env.pidfile = Except.ok pid →
        check_proc env.procTable pid "steam" = none →
        monitor env = ([], none))
    ∧ (∀ e, read_pidfile env.pidfile = Except.error e →
        monitor env = ([], some e)) := by
  constructor
  · intro pid hok hproc
    simp [monitor, hw, hok, hproc]
  · intro e herr
    simp [monitor, hw, herr]

/-- Witness for the amended C1: Sunday noon, PID file containing 123, no
process with that PID — monitor returns quietly. -/
theorem monitor_outside_window_pidfile_witness :
    check_time (⟨6, 12, 0, 0⟩ : DateTime) ALLOWED_PERIOD.weekday
        ALLOWED_PERIOD.hour_start ALLOWED_PERIOD.hour_end = false
    ∧ monitor ⟨⟨6, 12, 0, 0⟩, PidFileState.content "123", fun _ => none,
        NotifyEnv.ok, true⟩ = ([], none) :=
  ⟨by decide,
    (monitor_outside_window_pidfile
        ⟨⟨6, 12, 0, 0⟩, PidFileState.content "123", fun _ => none,
          NotifyEnv.ok, true⟩ (by decide)).1 123 rfl rfl⟩

/-- C3 counterexample: when the notification command runs but exits
unsuccessfully, subprocess.run(check=True) raises CalledProcessError, which
the except OSError clause does not catch: terminate_proc aborts before any
graceful termination request is sent. -/
theorem notify_nonzero_exit_aborts_termination :
    terminate_proc NotifyEnv.cmdFailed true 1
        = ([Act.notifyCmd], some PyError.calledProcessError)
    ∧ Act.sigterm 1 ∉ (terminate_proc NotifyEnv.cmdFailed true 1).1 := by
  constructor
  · rfl
  · decide

/-- C3 amended: a notification failure of class OSError, such as the
notify-send command being absent, is caught and logged as a warning and the
graceful termination request is still sent afterwards; but a notification
command that exits unsuccessfully raises CalledProcessError, which is not
caught and aborts termination before SIGTERM. -/
theorem notify_failure_modes (exits : Bool) (pid : Int) :
    (terminate_proc NotifyEnv.cmdMissing exits pid).2 = none
    ∧ Act.warnNotify ∈ (terminate_proc NotifyEnv.cmdMissing exits pid).1
    ∧ Act.sigterm pid ∈ (terminate_proc NotifyEnv.cmdMissing exits pid).1
    ∧ (terminate_proc NotifyEnv.cmdFailed exits pid).2
        = some PyError.calledProcessError
    ∧ Act.sigterm pid ∉ (terminate_proc NotifyEnv.cmdFailed exits pid).1 := by
  cases exits <;> simp [terminate_proc, notify_desktop]

/-- C5 counterexample: with a notification command that exits unsuccessfully
and a process that would ignore SIGTERM, terminate_proc attempts neither the
graceful SIGTERM nor the grace-period wait nor the SIGKILL: the claim that
graceful termination is always attempted fails. -/
theorem terminate_proc_no_sigterm_when_notify_raises :
    Act.sigterm 2 ∉ (terminate_proc NotifyEnv.cmdFailed false 2).1
    ∧ Act.wait PROC_TERM_TIMEOUT ∉ (terminate_proc NotifyEnv.cmdFailed false 2).1
    ∧ Act.sigkill 2 ∉ (terminate_proc NotifyEnv.cmdFailed false 2).1 := by
  decide

/-- C5 amended: whenever the notification step does not raise, terminate_proc
sends exactly one SIGTERM, immediately followed by a wait of exactly the
fixed 10-second grace period, with no SIGTERM or SIGKILL before it; if the
process exits within the grace period no SIGKILL is ever sent, and otherwise
exactly one SIGKILL is sent as the final step, with no further waiting. -/
theorem terminate_proc_escalation (ne : NotifyEnv) (exits : Bool) (pid : Int)
    (h : ne ≠ NotifyEnv.cmdFailed) :
    (terminate_proc ne exits pid).2 = none
    ∧ ∃ pre post,
        (terminate_proc ne exits pid).1
          = pre ++ Act.sigterm pid :: Act.wait PROC_TERM_TIMEOUT :: post
        ∧ Act.sigterm pid ∉ pre
        ∧ Act.sigkill pid ∉ pre
        ∧ post = (if exits then [Act.logTerminated pid]
            else [Act.warnKill pid, Act.sigkill pid]) := by
  cases ne with
  | cmdFailed => exact absurd rfl h
  | ok =>
    cases exits <;>
      exact ⟨rfl, [Act.notifyCmd, Act.logSigterm pid], _, rfl,
        by simp, by simp, rfl⟩
  | cmdMissing =>
    cases exits <;>
      exact ⟨rfl, [Act.notifyCmd, Act.warnNotify, Act.logSigterm pid], _, rfl,
        by simp, by simp, rfl⟩

/-- Witness for the amended C5: working notification, process ignores
SIGTERM, PID 7. -/
theorem terminate_proc_escalation_witness :
    (terminate_proc NotifyEnv.ok false 7).2 = none
    ∧ ∃ pre post,
        (terminate_proc NotifyEnv.ok false 7).1
          = pre ++ Act.sigterm 7 :: Act.wait PROC_TERM_TIMEOUT :: post
        ∧ Act.sigterm 7 ∉ pre
        ∧ Act.sigkill 7 ∉ pre
        ∧ post = (if false then [Act.logTerminated 7]
            else [Act.warnKill 7, Act.sigkill 7]) :=
  terminate_proc_escalation NotifyEnv.ok false 7 (by decide)

/-- C6 counterexample: with the steam directory present but the steam.pid
file missing, check_steam returns false and main exits at the startup gate
without arming the timer or the watcher — refuting the claim that the daemon
exits only when the directory is absent. -/
theorem startup_exits_when_pidfile_missing :
    (check_steam true false).2 = false
    ∧ (main_startup true false).2 = some 0 := ⟨rfl, rfl⟩

/-- C6 amended: the daemon passes the startup gate and arms the timer and the
watcher exactly when the installation directory exists and the PID file also
exists; it exits early when either is missing. -/
theorem startup_gate_iff (d p : Bool) :
    (main_startup d p).2 = none ↔ (d = true ∧ p = true) := by
  cases d <;> cases p <;> simp [main_startup, check_steam]

/-- C7 counterexample: with the installation directory missing, the early
exit happens with status 0 — Python exit() with no argument — so there is no
exit code c with c ≠ 0, refuting the non-zero exit condition. -/
theorem startup_exit_code_zero :
    (main_startup false true).2 = some 0
    ∧ ¬ (∃ c, (main_startup false true).2 = some c ∧ c ≠ 0) := by
  refine ⟨rfl, ?_⟩
  rintro ⟨c, hc, hne⟩
  simp [main_startup, check_steam] at hc
  exact hne hc.symm

/-- C7 amended: when the installation directory is not found at startup, the
daemon logs the fatal condition and terminates early with exit status 0, not
with a non-zero status; when the directory and the PID file both exist it
passes the startup gate with no early exit and proceeds to arm the scheduler
and the watcher. -/
theorem startup_exit_behavior (d p : Bool) :
    (d = false → main_startup d p
        = ([LogEvent.infoInit, LogEvent.errorDirMissing, LogEvent.infoExiting],
            some 0))
    ∧ (d = true → p = true → (main_startup d p).2 = none) := by
  cases d <;> cases p <;> simp [main_startup, check_steam]

/-- Witness for the amended C7: directory missing, PID file present. -/
theorem startup_exit_behavior_witness :
    main_startup false true
      = ([LogEvent.infoInit, LogEvent.errorDirMissing, LogEvent.infoExiting],
          some 0) :=
  (startup_exit_behavior false true).1 rfl

/-- C2, evaluating the code at a failing input: at Friday 20:00:00 (weekday 4)
calc_time_to_end returns -7200 seconds — not a strictly positive delay — and
the instant it targets falls on weekday 4 (Friday), not on the configured
weekday 5 (Saturday), because the code passes ALLOWED_PERIOD weekday minus 1
to relativedelta although dateutil numbers weekdays exactly like Python; the
next instant sched_monitor would arm is therefore strictly earlier than the
instant just fired. -/
theorem calc_time_to_end_friday_evening :
    calc_time_to_end ⟨4, 20, 0, 0⟩ = -7200
    ∧ calc_time_to_end ⟨4, 20, 0, 0⟩ < 0
    ∧ DateTime.weekday (relativedelta_add ⟨4, 20, 0, 0⟩
        (ALLOWED_PERIOD.weekday - 1) ALLOWED_PERIOD.hour_end)
        ≠ ALLOWED_PERIOD.weekday
    ∧ sched_monitor_next ⟨4, 20, 0, 0⟩ < DateTime.toSeconds ⟨4, 20, 0, 0⟩ := by
  refine ⟨rfl, by decide, by decide, by decide⟩
